import Mathlib

/-!
Verification development for the chat relay server (`src/views/chat.py` of
style.vtbs.moe): a shallow embedding of the avatar resolver
(`get_avatar_url`, `_fetch_avatar_loop`), the room broadcast engine
(`Room.send_message`, author-type classification), the `RoomManager`
directory and the `ChatHandler.on_message` protocol handler, together with
theorems settling the specification's claims about them.

Conventions: wall-clock times are integers in milliseconds (the Python code
compares `datetime` differences in seconds: 0.2 s = 200 ms, 183 s =
183000 ms).  Python `dict`s are embedded as insertion-ordered association
lists.  A Python exception escaping a function is represented explicitly
(`AvRes.raise`, or an `Option`/result `none`).
-/

set_option autoImplicit false

namespace ChatPy

/-- `DEFAULT_AVATAR_URL` from chat.py line 26. -/
def DEFAULT_AVATAR_URL : String := "https://static.hdslb.com/images/member/noface.gif"

/-- The state of the avatar resolver's module-level globals
(`_avatar_url_cache`, `_last_fetch_avatar_time`, `_last_avatar_failed_time`,
`_uids_to_fetch_avatar`). -/
structure AvatarState where
  /-- `_avatar_url_cache`: a Python dict, i.e. an insertion-ordered map. -/
  cache : List (Nat × String)
  /-- `_last_fetch_avatar_time` in milliseconds. -/
  lastFetchTime : Int
  /-- `_last_avatar_failed_time` (None or a time in milliseconds). -/
  lastFailedTime : Option Int
  /-- `_uids_to_fetch_avatar`: an `asyncio.Queue(15)`, front of the list is
  the next element to be popped. -/
  queue : List Nat
  deriving Repr, DecidableEq

/-- The outcome of the single outbound HTTP request that one
`get_avatar_url` call may perform, as seen by the code: either a response
with a status code and (for the code path that reads it) the value of
`data['data']['face']` — `none` standing for a body on which `await
r.json()` or the subsequent indexing raises (malformed response) — or an
`aiohttp.ClientConnectionError`. -/
inductive FetchResult where
  | response (status : Nat) (body : Option String)
  | connError
  deriving Repr, DecidableEq

/-- What one `get_avatar_url` call does: returns a URL string, or lets a
Python exception escape to the caller. -/
inductive AvRes where
  | ok (url : String)
  | raise
  deriving Repr, DecidableEq

/-- Result of one `get_avatar_url` call: the returned value (or escaping
exception), the final state of the module globals, and whether an outbound
HTTP request was issued. -/
structure AvStep where
  res : AvRes
  st : AvatarState
  fetched : Bool
  deriving Repr, DecidableEq

/-- Dict lookup `cache[uid]` (first — and in a dict, only — entry with the
key). -/
def lookupCache : List (Nat × String) → Nat → Option String
  | [], _ => none
  | (k, v) :: rest, uid => if k = uid then some v else lookupCache rest uid

/-- Dict assignment `cache[uid] = url`: update in place if the key is
present, otherwise append (Python dicts preserve insertion order and a new
key goes last). -/
def insertCache : List (Nat × String) → Nat → String → List (Nat × String)
  | [], uid, url => [(uid, url)]
  | (k, v) :: rest, uid, url =>
      if k = uid then (k, url) :: rest else (k, v) :: insertCache rest uid url

/-- Python `s.endswith(suffix)`: the characters of `suffix` are a suffix of
the characters of `s`. -/
def pyEndsWith (s suffix : String) : Bool :=
  suffix.data.isSuffixOf s.data

/-- Lines 57-77 of chat.py: the fetch attempt of `get_avatar_url`, entered
once the cache-miss, throttle and backoff checks have all passed.  It first
records `_last_fetch_avatar_time = cur_time`, then performs the request.

The eviction loop on lines 73-75 is
`for _, key in zip(range(100), _avatar_url_cache): del _avatar_url_cache[key]`:
it deletes the dict's first key, and on the next step the dict key iterator
raises `RuntimeError: dictionary changed size during iteration` (CPython
forbids mutating a dict while iterating over it).  So when the bound is
exceeded exactly one entry — the oldest — is removed and the call raises. -/
def fetchStep (st : AvatarState) (curTime : Int) (uid : Nat) (fetch : FetchResult) : AvStep :=
  let st1 := { st with lastFetchTime := curTime }
  match fetch with
  | .connError => ⟨.ok DEFAULT_AVATAR_URL, st1, true⟩
  | .response status body =>
    if status ≠ 200 then
      ⟨.ok DEFAULT_AVATAR_URL, { st1 with lastFailedTime := some curTime }, true⟩
    else
      match body with
      | none => ⟨.raise, st1, true⟩
      | some face =>
        let url := if pyEndsWith face "noface.gif" then face else face ++ "@48w_48h"
        let cache1 := insertCache st1.cache uid url
        if cache1.length > 50000 then
          ⟨.raise, { st1 with cache := cache1.tail }, true⟩
        else
          ⟨.ok url, { st1 with cache := cache1 }, true⟩

/-- `get_avatar_url(user_id)`, chat.py lines 35-77, as a function of the
global state, the current wall-clock time (`datetime.datetime.now()` at
entry), the requested user id, and the outcome the network would give if
the outbound request is issued. -/
def getAvatarUrl (st : AvatarState) (curTime : Int) (uid : Nat) (fetch : FetchResult) : AvStep :=
  match lookupCache st.cache uid with
  | some url => ⟨.ok url, st, false⟩
  | none =>
    if curTime - st.lastFetchTime < 200 then
      ⟨.ok DEFAULT_AVATAR_URL,
       { st with queue := if st.queue.length < 15 then st.queue ++ [uid] else st.queue },
       false⟩
    else
      match st.lastFailedTime with
      | some t =>
        if curTime - t < 183000 then
          ⟨.ok DEFAULT_AVATAR_URL, st, false⟩
        else
          fetchStep { st with lastFailedTime := none } curTime uid fetch
      | none => fetchStep st curTime uid fetch

/-- What one iteration of `_fetch_avatar_loop` (chat.py lines 80-90) does
with the user id it popped from the queue. -/
inductive LoopStep where
  /-- The id is already cached: `continue`, nothing else happens. -/
  | skip
  /-- `await asyncio.sleep(sleepMs / 1000)` — a non-positive duration
  yields immediately — then `asyncio.ensure_future(get_avatar_url(uid))`:
  the fetch is started without waiting for its result. -/
  | sleepThenFetch (sleepMs : Int)
  deriving Repr, DecidableEq

/-- One iteration of the background worker after popping `uid`, given the
cache contents, the current time and `_last_fetch_avatar_time`.  The sleep
on line 87 is `0.4 - (now - _last_fetch_avatar_time).total_seconds()`
seconds, i.e. `400 - (now - lastFetch)` milliseconds. -/
def fetchAvatarLoopIter (cache : List (Nat × String)) (uid : Nat)
    (nowTime lastFetchTime : Int) : LoopStep :=
  match lookupCache cache uid with
  | some _ => .skip
  | none => .sleepThenFetch (400 - (nowTime - lastFetchTime))

/-! ## Room, RoomManager, ChatHandler -/

/-- The per-room state relevant to the directory: the subscriber list
(`Room.clients`, insertion order = join order, subscribers identified by an
opaque handle) and whether the upstream client was started
(`is_running` after `room.start()`). -/
structure RoomM where
  clients : List Nat
  started : Bool
  deriving Repr, DecidableEq

/-- `RoomManager` state: `self._rooms`, a dict from room id to `Room`. -/
structure RMState where
  rooms : List (Int × RoomM)
  deriving Repr, DecidableEq

/-- The externally visible effects of the `RoomManager`/`Room` operations,
in program order. -/
inductive RMEvent where
  /-- `Room(room_id)` constructed. -/
  | createRoom (rid : Int)
  /-- `room.start()`: the upstream client for `rid` starts. -/
  | startClient (rid : Int)
  /-- `room.clients.append(client)`. -/
  | appendClient (rid : Int) (cid : Nat)
  /-- `self.stop()` of the upstream client (inside `stop_and_close`). -/
  | stopClient (rid : Int)
  /-- `self.close()` of the upstream client, run after stop completes. -/
  | closeClient (rid : Int)
  /-- `RoomManager.__send_test_message(room)` (debug mode only). -/
  | sendTest (rid : Int)
  deriving Repr, DecidableEq

/-- Dict lookup `self._rooms[room_id]`. -/
def lookupRoom : List (Int × RoomM) → Int → Option RoomM
  | [], _ => none
  | (k, v) :: rest, rid => if k = rid then some v else lookupRoom rest rid

/-- Dict assignment `self._rooms[room_id] = room`. -/
def setRoom : List (Int × RoomM) → Int → RoomM → List (Int × RoomM)
  | [], rid, room => [(rid, room)]
  | (k, v) :: rest, rid, room =>
      if k = rid then (k, room) :: rest else (k, v) :: setRoom rest rid room

/-- `del self._rooms[room_id]`. -/
def eraseRoom : List (Int × RoomM) → Int → List (Int × RoomM)
  | [], _ => []
  | (k, v) :: rest, rid => if k = rid then rest else (k, v) :: eraseRoom rest rid

/-- `list.remove(x)`: remove the first occurrence, `none` when absent
(Python raises `ValueError`). -/
def removeFirst : List Nat → Nat → Option (List Nat)
  | [], _ => none
  | c :: rest, cid =>
      if c = cid then some rest
      else match removeFirst rest cid with
           | some l => some (c :: l)
           | none => none

/-- `Room.stop_and_close` (chat.py lines 101-106): if the client is
running, stop it and close once the stop completes; otherwise close
directly. -/
def stopAndClose (rid : Int) (room : RoomM) : List RMEvent :=
  if room.started then [.stopClient rid, .closeClient rid] else [.closeClient rid]

/-- `RoomManager.add_client` (chat.py lines 166-177): reuse the existing
`Room` if `room_id` is a key of the directory, otherwise create one, put it
in the directory and start it; then append the client; in debug mode also
push the test messages. -/
def addClient (debug : Bool) (st : RMState) (rid : Int) (cid : Nat) :
    RMState × List RMEvent :=
  match lookupRoom st.rooms rid with
  | some room =>
      (⟨setRoom st.rooms rid { room with clients := room.clients ++ [cid] }⟩,
       [.appendClient rid cid] ++ if debug then [.sendTest rid] else [])
  | none =>
      (⟨setRoom st.rooms rid ⟨[cid], true⟩⟩,
       [.createRoom rid, .startClient rid, .appendClient rid cid]
         ++ if debug then [.sendTest rid] else [])

/-- `RoomManager.del_client` (chat.py lines 179-187): no-op when the room
id is unknown; otherwise remove the client from the room (`none` = the
`ValueError` from `list.remove` escaping) and, if the room has no clients
left, stop-and-close it and delete it from the directory. -/
def delClient (st : RMState) (rid : Int) (cid : Nat) :
    Option (RMState × List RMEvent) :=
  match lookupRoom st.rooms rid with
  | none => some (st, [])
  | some room =>
      match removeFirst room.clients cid with
      | none => none
      | some clients1 =>
          if clients1.isEmpty then
            some (⟨eraseRoom st.rooms rid⟩, stopAndClose rid room)
          else
            some (⟨setRoom st.rooms rid { room with clients := clients1 }⟩, [])

/-- `json.dumps({'cmd': cmd, 'data': data})` with `data` already rendered:
the single encoding computed on chat.py line 109. -/
def encodeMessage (cmd : Int) (data : String) : String :=
  "\x7b\"cmd\": " ++ toString cmd ++ ", \"data\": " ++ data ++ "\x7d"

/-- `Room.send_message` (chat.py lines 108-111): encode once, then
`client.write_message(body)` for each subscriber in list order.  The result
lists the writes performed, as (subscriber, payload) pairs in program
order. -/
def sendMessage (clients : List Nat) (cmd : Int) (data : String) :
    List (Nat × String) :=
  let body := encodeMessage cmd data
  clients.map (fun c => (c, body))

/-- The `author_type` computation of `Room.__on_receive_danmaku` (chat.py
lines 116-124).  `roomOwnerUid` is `self.room_owner_uid`, `none` while the
owner id has not been learned from upstream (`uid == None` is false in
Python); `admin` and `privilegeType` are the integer fields of the danmaku,
tested for truthiness / `!= 0`. -/
def authorType (uid : Int) (roomOwnerUid : Option Int) (admin : Int)
    (privilegeType : Int) : Nat :=
  if roomOwnerUid = some uid then 3
  else if admin ≠ 0 then 2
  else if privilegeType ≠ 0 then 1
  else 0

/-- An inbound websocket message as `ChatHandler.on_message` decodes it.
`badJson` stands for input on which `json.loads(message)` raises.  For a
decoded JSON object: `cmd` is the value of `body['cmd']` (`none` when the
key is missing, so the access raises `KeyError`); `data` is `none` when the
`'data'` key is missing, and otherwise carries `int(body['data']['roomId'])`
when that succeeds (`some none` when `'roomId'` is missing or not
convertible, in which case the access on line 249 raises). -/
inductive InboundMsg where
  | badJson
  | obj (cmd : Option Int) (data : Option (Option Int))
  deriving Repr, DecidableEq

/-- `ChatHandler.on_message` (chat.py lines 244-253) for the connection
handle `cid` whose current assignment is `roomId`, against the room
directory `rm`.  Returns the new assignment, directory and emitted events,
or `none` when an exception escapes the handler. -/
def onMessage (debug : Bool) (roomId : Option Int) (rm : RMState) (cid : Nat)
    (msg : InboundMsg) : Option (Option Int × RMState × List RMEvent) :=
  match roomId with
  | some r => some (some r, rm, [])
  | none =>
    match msg with
    | .badJson => none
    | .obj cmdOpt dataOpt =>
      match cmdOpt with
      | none => none
      | some cmd =>
        if cmd = 0 then
          match dataOpt with
          | none => none
          | some ridOpt =>
            match ridOpt with
            | none => none
            | some rid =>
                let (rm1, evs) := addClient debug rm rid cid
                some (some rid, rm1, evs)
        else
          match dataOpt with
          | none => none
          | some _ => some (none, rm, [])

/-- The backoff guard of chat.py lines 50-55 does not short-circuit the
call: either no failure is recorded, or the recorded failure is at least
183 s old (so the `else` branch clears it). -/
def backoffInactive (st : AvatarState) (curTime : Int) : Prop :=
  ∀ t, st.lastFailedTime = some t → 183000 ≤ curTime - t

/-- A cache holding exactly 50,000 entries (user ids 0..49999 inserted in
that order), i.e. sitting at the capacity bound. -/
def bigCache : List (Nat × String) := (List.range 50000).map (fun i => (i, "u"))

/-! ## Association-list lemmas -/

theorem lookupCache_eq_none_iff (l : List (Nat × String)) (k : Nat) :
    lookupCache l k = none ↔ k ∉ l.map Prod.fst := by
  induction l with
  | nil => simp [lookupCache]
  | cons p rest ih =>
      obtain ⟨a, b⟩ := p
      simp only [lookupCache, List.map_cons, List.mem_cons]
      by_cases h : a = k
      · subst h
        simp
      · simp [h, ih, Ne.symm h]

theorem insertCache_of_absent (l : List (Nat × String)) (k : Nat) (v : String)
    (h : k ∉ l.map Prod.fst) : insertCache l k v = l ++ [(k, v)] := by
  induction l with
  | nil => simp [insertCache]
  | cons p rest ih =>
      obtain ⟨a, b⟩ := p
      simp only [List.map_cons, List.mem_cons] at h
      push_neg at h
      simp [insertCache, Ne.symm h.1, ih h.2]

theorem insertCache_length_le (l : List (Nat × String)) (k : Nat) (v : String) :
    (insertCache l k v).length ≤ l.length + 1 := by
  induction l with
  | nil => simp [insertCache]
  | cons p rest ih =>
      obtain ⟨a, b⟩ := p
      by_cases h : a = k
      · simp [insertCache, h]
      · simp only [insertCache, if_neg h, List.length_cons]
        omega

theorem lookupCache_append_of_absent (l1 l2 : List (Nat × String)) (k : Nat)
    (h : k ∉ l1.map Prod.fst) :
    lookupCache (l1 ++ l2) k = lookupCache l2 k := by
  induction l1 with
  | nil => simp
  | cons p rest ih =>
      obtain ⟨a, b⟩ := p
      simp only [List.map_cons, List.mem_cons] at h
      push_neg at h
      simp [lookupCache, Ne.symm h.1, ih h.2]

theorem lookupRoom_eq_none_iff (l : List (Int × RoomM)) (k : Int) :
    lookupRoom l k = none ↔ k ∉ l.map Prod.fst := by
  induction l with
  | nil => simp [lookupRoom]
  | cons p rest ih =>
      obtain ⟨a, b⟩ := p
      simp only [lookupRoom, List.map_cons, List.mem_cons]
      by_cases h : a = k
      · subst h
        simp
      · simp [h, ih, Ne.symm h]

theorem setRoom_of_absent (l : List (Int × RoomM)) (k : Int) (v : RoomM)
    (h : k ∉ l.map Prod.fst) : setRoom l k v = l ++ [(k, v)] := by
  induction l with
  | nil => simp [setRoom]
  | cons p rest ih =>
      obtain ⟨a, b⟩ := p
      simp only [List.map_cons, List.mem_cons] at h
      push_neg at h
      simp [setRoom, Ne.symm h.1, ih h.2]

theorem setRoom_keys_of_present (l : List (Int × RoomM)) (k : Int) (v r : RoomM)
    (h : lookupRoom l k = some r) :
    (setRoom l k v).map Prod.fst = l.map Prod.fst := by
  induction l with
  | nil => simp [lookupRoom] at h
  | cons p rest ih =>
      obtain ⟨a, b⟩ := p
      by_cases hak : a = k
      · simp [setRoom, hak]
      · simp only [lookupRoom, if_neg hak] at h
        simp [setRoom, hak, ih h]

theorem lookupRoom_eraseRoom_of_nodup (l : List (Int × RoomM)) (k : Int)
    (h : (l.map Prod.fst).Nodup) :
    lookupRoom (eraseRoom l k) k = none := by
  induction l with
  | nil => simp [eraseRoom, lookupRoom]
  | cons p rest ih =>
      obtain ⟨a, b⟩ := p
      simp only [List.map_cons, List.nodup_cons] at h
      by_cases hak : a = k
      · subst hak
        simp only [eraseRoom, if_pos rfl]
        exact (lookupRoom_eq_none_iff rest a).mpr h.1
      · simp [eraseRoom, hak, lookupRoom, ih h.2]

theorem tail_append_of_ne_nil {α : Type} (l l2 : List α) (h : l ≠ []) :
    (l ++ l2).tail = l.tail ++ l2 := by
  cases l with
  | nil => exact absurd rfl h
  | cons a rest => simp

/-! ## Claim theorems -/

/-- C7: for every chat event, `authorType` follows strict precedence: the
sender id equalling the room's learned owner id gives owner (3) regardless
of the other flags; otherwise a set admin flag gives moderator (2);
otherwise a non-zero membership/privilege tier gives member (1); otherwise
viewer (0). -/
theorem authorType_precedence (uid : Int) (owner : Option Int)
    (admin priv : Int) :
    (owner = some uid → authorType uid owner admin priv = 3) ∧
    (owner ≠ some uid → admin ≠ 0 → authorType uid owner admin priv = 2) ∧
    (owner ≠ some uid → admin = 0 → priv ≠ 0 →
       authorType uid owner admin priv = 1) ∧
    (owner ≠ some uid → admin = 0 → priv = 0 →
       authorType uid owner admin priv = 0) := by
  refine ⟨fun h1 => by simp [authorType, h1],
          fun h1 h2 => by simp [authorType, h1, h2],
          fun h1 h2 h3 => by simp [authorType, h1, h2, h3],
          fun h1 h2 h3 => by simp [authorType, h1, h2, h3]⟩

/-- Witness for `authorType_precedence` at concrete inputs: owner beats all
flags; then admin; then tier; else viewer. -/
theorem authorType_precedence_witness :
    authorType 7 (some 7) 1 2 = 3 ∧ authorType 7 (some 9) 1 2 = 2 ∧
    authorType 7 (some 9) 0 2 = 1 ∧ authorType 7 (some 9) 0 0 = 0 :=
  ⟨(authorType_precedence 7 (some 7) 1 2).1 rfl,
   (authorType_precedence 7 (some 9) 1 2).2.1 (by decide) (by decide),
   (authorType_precedence 7 (some 9) 0 2).2.2.1 (by decide) rfl (by decide),
   (authorType_precedence 7 (some 9) 0 0).2.2.2 (by decide) rfl rfl⟩

/-- C8: a broadcast on a room with subscribers `clients` encodes
`{cmd, data}` once and performs exactly one write of that identical
payload per subscriber, in join order; with no subscribers it performs no
writes and raises no error. -/
theorem sendMessage_broadcast (clients : List Nat) (cmd : Int)
    (data : String) :
    sendMessage clients cmd data =
      clients.map (fun c => (c, encodeMessage cmd data)) ∧
    (sendMessage clients cmd data).map Prod.fst = clients ∧
    sendMessage [] cmd data = [] := by
  refine ⟨rfl, ?_, rfl⟩
  have hcomp : (Prod.fst ∘ fun c : Nat => (c, encodeMessage cmd data)) = id := rfl
  simp [sendMessage, List.map_map, hcomp]

/-- C3: on a cache miss with less than 200 ms since the last fetch
attempt, `get_avatar_url` does no outbound fetch, enqueues the id on the
pending queue iff it holds fewer than 15 entries (silently dropping it
otherwise), changes no other state, and returns the default placeholder;
the queue never grows beyond 15. -/
theorem getAvatarUrl_throttle (st : AvatarState) (curTime : Int) (uid : Nat)
    (fetch : FetchResult)
    (hmiss : lookupCache st.cache uid = none)
    (hfast : curTime - st.lastFetchTime < 200) :
    getAvatarUrl st curTime uid fetch =
      ⟨.ok DEFAULT_AVATAR_URL,
       { st with queue :=
          if st.queue.length < 15 then st.queue ++ [uid] else st.queue },
       false⟩ ∧
    (st.queue.length ≤ 15 →
      (getAvatarUrl st curTime uid fetch).st.queue.length ≤ 15) := by
  have h1 : getAvatarUrl st curTime uid fetch =
      ⟨.ok DEFAULT_AVATAR_URL,
       { st with queue :=
          if st.queue.length < 15 then st.queue ++ [uid] else st.queue },
       false⟩ := by
    simp [getAvatarUrl, hmiss, hfast]
  refine ⟨h1, fun hq => ?_⟩
  rw [h1]
  by_cases hlen : st.queue.length < 15
  · simp [hlen]
    omega
  · simp [hlen]
    exact hq

/-- Witness for `getAvatarUrl_throttle`: an empty cache, a fetch attempt
100 ms ago. -/
theorem getAvatarUrl_throttle_witness :
    getAvatarUrl ⟨[], 0, none, []⟩ 100 5 .connError =
      ⟨.ok DEFAULT_AVATAR_URL, ⟨[], 0, none, [5]⟩, false⟩ ∧
    (getAvatarUrl ⟨[], 0, none, []⟩ 100 5 .connError).st.queue.length ≤ 15 := by
  have h := getAvatarUrl_throttle ⟨[], 0, none, []⟩ 100 5 .connError rfl
    (by decide)
  exact ⟨by rw [h.1]; rfl, h.2 (by decide)⟩

/-- C2: the `RoomManager` keeps at most one `Room` per room id.  Joining
an id with no existing room creates exactly one room, starts exactly one
upstream client and only then appends the subscriber; removing the last
subscriber performs exactly one stop-then-close sequence and removes the
room from the directory; removing a subscriber of an unknown room id is a
no-op; distinctness of the directory keys is preserved by `add_client`. -/
theorem roomManager_lifecycle :
    (∀ (debug : Bool) (st : RMState) (rid : Int) (cid : Nat),
       lookupRoom st.rooms rid = none →
       addClient debug st rid cid =
         (⟨st.rooms ++ [(rid, ⟨[cid], true⟩)]⟩,
          [.createRoom rid, .startClient rid, .appendClient rid cid]
            ++ if debug then [.sendTest rid] else [])) ∧
    (∀ (st : RMState) (rid : Int) (cid : Nat) (room : RoomM),
       (st.rooms.map Prod.fst).Nodup →
       lookupRoom st.rooms rid = some room →
       room.clients = [cid] → room.started = true →
       delClient st rid cid =
         some (⟨eraseRoom st.rooms rid⟩,
               [.stopClient rid, .closeClient rid]) ∧
       lookupRoom (eraseRoom st.rooms rid) rid = none) ∧
    (∀ (st : RMState) (rid : Int) (cid : Nat),
       lookupRoom st.rooms rid = none →
       delClient st rid cid = some (st, [])) ∧
    (∀ (debug : Bool) (st : RMState) (rid : Int) (cid : Nat),
       (st.rooms.map Prod.fst).Nodup →
       ((addClient debug st rid cid).1.rooms.map Prod.fst).Nodup) := by
  refine ⟨?_, ?_, ?_, ?_⟩
  · intro debug st rid cid habs
    have hmem := (lookupRoom_eq_none_iff st.rooms rid).mp habs
    simp [addClient, habs, setRoom_of_absent st.rooms rid ⟨[cid], true⟩ hmem]
  · intro st rid cid room hnd hsome hcl hstart
    refine ⟨?_, lookupRoom_eraseRoom_of_nodup st.rooms rid hnd⟩
    simp [delClient, hsome, hcl, removeFirst, stopAndClose, hstart]
  · intro st rid cid habs
    simp [delClient, habs]
  · intro debug st rid cid hnd
    rcases hl : lookupRoom st.rooms rid with _ | room
    · have hmem := (lookupRoom_eq_none_iff st.rooms rid).mp hl
      simp [addClient, hl, setRoom_of_absent st.rooms rid ⟨[cid], true⟩ hmem,
            List.nodup_append, hnd, hmem]
    · simpa [addClient, hl,
        setRoom_keys_of_present st.rooms rid
          { room with clients := room.clients ++ [cid] } room hl] using hnd

/-- Witness for `roomManager_lifecycle`: one client joins room 1 from an
empty directory, then leaves again; deleting from an unknown room is a
no-op; key distinctness is preserved. -/
theorem roomManager_lifecycle_witness :
    addClient false ⟨[]⟩ 1 2 =
      (⟨[(1, ⟨[2], true⟩)]⟩,
       [.createRoom 1, .startClient 1, .appendClient 1 2]) ∧
    delClient ⟨[(1, ⟨[2], true⟩)]⟩ 1 2 =
      some (⟨[]⟩, [.stopClient 1, .closeClient 1]) ∧
    lookupRoom (eraseRoom [(1, ⟨[2], true⟩)] 1) 1 = none ∧
    delClient ⟨[]⟩ 5 2 = some (⟨[]⟩, []) ∧
    ((addClient false ⟨[(1, ⟨[2], true⟩)]⟩ 1 9).1.rooms.map Prod.fst).Nodup := by
  have h := roomManager_lifecycle
  have h2 := h.2.1 ⟨[(1, ⟨[2], true⟩)]⟩ 1 2 ⟨[2], true⟩ (by simp) rfl rfl rfl
  exact ⟨by rw [h.1 false ⟨[]⟩ 1 2 rfl]; rfl,
         by rw [h2.1]; rfl,
         h2.2,
         h.2.2.1 ⟨[]⟩ 5 2 rfl,
         h.2.2.2 false ⟨[(1, ⟨[2], true⟩)]⟩ 1 9 (by simp)⟩

/-- C9 counterexample: on a fresh connection (`room_id = None`) a
malformed envelope makes `json.loads(message)` raise, so the handler does
not ignore the message without error as claimed — the call escapes with an
exception (`none`). -/
theorem onMessage_badJson_raises :
    onMessage false none ⟨[]⟩ 1 .badJson = none := rfl

/-- C9 amended: any message arriving after the connection's room id is
assigned is ignored with no state change and no error (so the assignment
is set at most once); a decoded envelope carrying `cmd` and `data` fields
whose command is not JOIN_ROOM (0) is ignored with no state change and no
error; but a malformed envelope — unparseable JSON, or a missing
`cmd`/`data`/`roomId` field — raises out of the handler instead of being
ignored. -/
theorem onMessage_ignores (debug : Bool) (roomId : Option Int) (rm : RMState)
    (cid : Nat) (msg : InboundMsg) :
    (∀ r, roomId = some r →
       onMessage debug roomId rm cid msg = some (some r, rm, [])) ∧
    (∀ (cmd : Int) (d : Option Int), roomId = none → cmd ≠ 0 →
       onMessage debug roomId rm cid (.obj (some cmd) (some d)) =
         some (none, rm, [])) ∧
    (roomId = none →
       onMessage debug roomId rm cid .badJson = none) := by
  refine ⟨fun r hr => by simp [onMessage, hr],
          fun cmd d hn hc => by simp [onMessage, hn, hc],
          fun hn => by simp [onMessage, hn]⟩

/-- Witness for `onMessage_ignores`: an assigned connection ignores even a
malformed message; a fresh connection ignores an unknown command carried
in a well-formed envelope; a fresh connection raises on malformed JSON. -/
theorem onMessage_ignores_witness :
    onMessage false (some 3) ⟨[]⟩ 1 .badJson = some (some 3, ⟨[]⟩, []) ∧
    onMessage false none ⟨[]⟩ 1 (.obj (some 2) (some (some 4))) =
      some (none, ⟨[]⟩, []) ∧
    onMessage false none ⟨[]⟩ 1 .badJson = none :=
  ⟨(onMessage_ignores false (some 3) ⟨[]⟩ 1 .badJson).1 3 rfl,
   (onMessage_ignores false none ⟨[]⟩ 1 .badJson).2.1 2 (some 4) rfl
     (by decide),
   (onMessage_ignores false none ⟨[]⟩ 1 .badJson).2.2 rfl⟩

/-- C1 counterexample: a cache miss whose fetch returns status 200 with a
body on which `await r.json()` or `data['data']['face']` raises (only
`aiohttp.ClientConnectionError` is caught) makes `get_avatar_url` raise to
its caller instead of returning a URL. -/
theorem getAvatarUrl_malformed_raises :
    (getAvatarUrl ⟨[], 0, none, []⟩ 1000 5 (.response 200 none)).res =
      .raise := rfl

/-- C1 amended: `get_avatar_url` returns a usable URL string — the default
placeholder on every degraded path — on cache hit, throttle, backoff,
rejected fetch (non-success status), transport failure and in-bounds
success; but a malformed success response (status 200 whose body cannot be
parsed down to `data['data']['face']`) raises to the caller, as does an
insertion that overflows the 50,000-entry bound (see the eviction bug). -/
theorem getAvatarUrl_total (st : AvatarState) (curTime : Int) (uid : Nat)
    (fetch : FetchResult)
    (hwf : fetch ≠ .response 200 none)
    (hcap : st.cache.length < 50000) :
    ∃ url, (getAvatarUrl st curTime uid fetch).res = .ok url := by
  have hfs : ∀ st1 : AvatarState, st1.cache = st.cache →
      ∃ url, (fetchStep st1 curTime uid fetch).res = .ok url := by
    intro st1 hc
    match fetch with
    | .connError => exact ⟨DEFAULT_AVATAR_URL, rfl⟩
    | .response status body =>
      by_cases hs : status = 200
      · subst hs
        match body with
        | none => exact absurd rfl hwf
        | some face =>
          have hlen := insertCache_length_le st1.cache uid
            (if pyEndsWith face "noface.gif" then face else face ++ "@48w_48h")
          have hlen2 : st1.cache.length = st.cache.length := by rw [hc]
          refine ⟨if pyEndsWith face "noface.gif" then face
                  else face ++ "@48w_48h", ?_⟩
          simp only [fetchStep]
          have hno : ¬ (insertCache st1.cache uid
              (if pyEndsWith face "noface.gif" then face
               else face ++ "@48w_48h")).length > 50000 := by omega
          simp [hno]
      · refine ⟨DEFAULT_AVATAR_URL, ?_⟩
        simp [fetchStep, hs]
  rcases hl : lookupCache st.cache uid with _ | url
  · by_cases hfast : curTime - st.lastFetchTime < 200
    · exact ⟨DEFAULT_AVATAR_URL, by simp [getAvatarUrl, hl, hfast]⟩
    · rcases hfail : st.lastFailedTime with _ | t
      · obtain ⟨url, hurl⟩ := hfs st rfl
        exact ⟨url, by simp [getAvatarUrl, hl, hfast, hfail, hurl]⟩
      · by_cases hwin : curTime - t < 183000
        · exact ⟨DEFAULT_AVATAR_URL,
            by simp [getAvatarUrl, hl, hfast, hfail, hwin]⟩
        · obtain ⟨url, hurl⟩ := hfs { st with lastFailedTime := none } rfl
          exact ⟨url, by simp [getAvatarUrl, hl, hfast, hfail, hwin, hurl]⟩
  · exact ⟨url, by simp [getAvatarUrl, hl]⟩

/-- Witness for `getAvatarUrl_total`: a transport failure on an empty
cache still yields a URL. -/
theorem getAvatarUrl_total_witness :
    ∃ url, (getAvatarUrl ⟨[], 0, none, []⟩ 1000 5 .connError).res =
      .ok url :=
  getAvatarUrl_total ⟨[], 0, none, []⟩ 1000 5 .connError (by decide)
    (by decide)

/-- C4 counterexample: during an active backoff window (failure recorded
at time 0, request at time 1000) a request for a cached user id returns
the cached URL, not the default placeholder — the claim's "all resolution
requests for any user id ... return the default placeholder" fails on
cache hits. -/
theorem getAvatarUrl_backoff_cacheHit :
    (getAvatarUrl ⟨[(7, "https://u")], 0, some 0, []⟩ 1000 7
        .connError).res = .ok "https://u" ∧
    "https://u" ≠ DEFAULT_AVATAR_URL := by
  exact ⟨rfl, by decide⟩

/-- C4 amended: after an outbound fetch returns a non-success status the
backoff state is set to the request's timestamp (checked against a 183 s
window), and every resolution request for a user id *not in the cache*
issued while the window is active returns the default placeholder without
any outbound fetch; once the window has elapsed a request may fetch again;
a transport/connection failure returns the default placeholder for that
call with no backoff state set. -/
theorem getAvatarUrl_backoff (st : AvatarState) (curTime : Int) (uid : Nat)
    (fetch : FetchResult) :
    (∀ t, st.lastFailedTime = some t → curTime - t < 183000 →
       lookupCache st.cache uid = none →
       (getAvatarUrl st curTime uid fetch).res = .ok DEFAULT_AVATAR_URL ∧
       (getAvatarUrl st curTime uid fetch).fetched = false) ∧
    (∀ (status : Nat) (body : Option String),
       lookupCache st.cache uid = none →
       200 ≤ curTime - st.lastFetchTime → backoffInactive st curTime →
       fetch = .response status body → status ≠ 200 →
       (getAvatarUrl st curTime uid fetch).res = .ok DEFAULT_AVATAR_URL ∧
       (getAvatarUrl st curTime uid fetch).st.lastFailedTime =
         some curTime ∧
       (getAvatarUrl st curTime uid fetch).fetched = true) ∧
    (lookupCache st.cache uid = none → 200 ≤ curTime - st.lastFetchTime →
       backoffInactive st curTime → fetch = .connError →
       (getAvatarUrl st curTime uid fetch).res = .ok DEFAULT_AVATAR_URL ∧
       (getAvatarUrl st curTime uid fetch).st.lastFailedTime = none ∧
       (getAvatarUrl st curTime uid fetch).fetched = true) := by
  refine ⟨?_, ?_, ?_⟩
  · intro t hfail hwin hmiss
    by_cases hfast : curTime - st.lastFetchTime < 200
    · simp [getAvatarUrl, hmiss, hfast]
    · simp [getAvatarUrl, hmiss, hfast, hfail, hwin]
  · intro status body hmiss hslow hback hfetch hstatus
    subst hfetch
    have hfast : ¬ curTime - st.lastFetchTime < 200 := by omega
    rcases hfail : st.lastFailedTime with _ | t
    · simp [getAvatarUrl, hmiss, hfast, hfail, fetchStep, hstatus]
    · have hwin : ¬ curTime - t < 183000 := by
        have := hback t hfail
        omega
      simp [getAvatarUrl, hmiss, hfast, hfail, hwin, fetchStep, hstatus]
  · intro hmiss hslow hback hfetch
    subst hfetch
    have hfast : ¬ curTime - st.lastFetchTime < 200 := by omega
    rcases hfail : st.lastFailedTime with _ | t
    · simp [getAvatarUrl, hmiss, hfast, hfail, fetchStep]
    · have hwin : ¬ curTime - t < 183000 := by
        have := hback t hfail
        omega
      simp [getAvatarUrl, hmiss, hfast, hfail, hwin, fetchStep]

/-- Witness for `getAvatarUrl_backoff` at concrete inputs: an uncached id
during the window gets the placeholder with no fetch; a 404 sets the
backoff timestamp; a connection error leaves it unset (clearing an
expired one). -/
theorem getAvatarUrl_backoff_witness :
    ((getAvatarUrl ⟨[], -1000, some 500, []⟩ 1000 5 .connError).res =
        .ok DEFAULT_AVATAR_URL ∧
     (getAvatarUrl ⟨[], -1000, some 500, []⟩ 1000 5 .connError).fetched =
        false) ∧
    ((getAvatarUrl ⟨[], 0, none, []⟩ 1000 5
          (.response 404 none)).res = .ok DEFAULT_AVATAR_URL ∧
     (getAvatarUrl ⟨[], 0, none, []⟩ 1000 5
          (.response 404 none)).st.lastFailedTime = some 1000 ∧
     (getAvatarUrl ⟨[], 0, none, []⟩ 1000 5
          (.response 404 none)).fetched = true) ∧
    ((getAvatarUrl ⟨[], 0, some (-183000), []⟩ 1000 5 .connError).res =
        .ok DEFAULT_AVATAR_URL ∧
     (getAvatarUrl ⟨[], 0, some (-183000), []⟩ 1000 5
          .connError).st.lastFailedTime = none ∧
     (getAvatarUrl ⟨[], 0, some (-183000), []⟩ 1000 5
          .connError).fetched = true) :=
  ⟨(getAvatarUrl_backoff ⟨[], -1000, some 500, []⟩ 1000 5 .connError).1
      500 rfl (by decide) rfl,
   (getAvatarUrl_backoff ⟨[], 0, none, []⟩ 1000 5 (.response 404 none)).2.1
      404 none rfl (by decide)
      (fun t ht => by simp at ht) rfl (by decide),
   (getAvatarUrl_backoff ⟨[], 0, some (-183000), []⟩ 1000 5 .connError).2.2
      rfl (by decide)
      (fun t ht => by
        simp only [Option.some.injEq] at ht
        omega)
      rfl⟩

/-- C6 counterexample: with 250 ms elapsed since the last fetch attempt
the claim says the worker sleeps zero; the code sleeps
`0.4 - elapsed` = 150 ms (it targets a 400 ms interval, not 200 ms). -/
theorem fetchAvatarLoopIter_not_200ms :
    fetchAvatarLoopIter [] 1 250 0 = .sleepThenFetch 150 ∧
    (150 : Int) ≠ max 0 (200 - (250 - 0)) := by
  exact ⟨rfl, by decide⟩

/-- C6 amended: each worker iteration pops one queued user id (blocking on
an empty queue), skips it when it is already cached, and otherwise sleeps
`400 - elapsed` milliseconds — the remaining time until 400 ms (not
200 ms) since the last fetch attempt, non-positive values yielding
immediately — before starting a fetch for it without waiting on its
result. -/
theorem fetchAvatarLoopIter_spec (cache : List (Nat × String)) (uid : Nat)
    (nowTime lastFetchTime : Int) :
    (∀ url, lookupCache cache uid = some url →
       fetchAvatarLoopIter cache uid nowTime lastFetchTime = .skip) ∧
    (lookupCache cache uid = none →
       fetchAvatarLoopIter cache uid nowTime lastFetchTime =
         .sleepThenFetch (400 - (nowTime - lastFetchTime))) :=
  ⟨fun url h => by simp [fetchAvatarLoopIter, h],
   fun h => by simp [fetchAvatarLoopIter, h]⟩

/-- Witness for `fetchAvatarLoopIter_spec`: a cached id is skipped; an
uncached one waits out the remainder of the 400 ms interval. -/
theorem fetchAvatarLoopIter_spec_witness :
    fetchAvatarLoopIter [(1, "u")] 1 250 0 = .skip ∧
    fetchAvatarLoopIter [] 1 250 0 = .sleepThenFetch 150 :=
  ⟨(fetchAvatarLoopIter_spec [(1, "u")] 1 250 0).1 "u" rfl,
   (fetchAvatarLoopIter_spec [] 1 250 0).2 rfl⟩

/-! ## The eviction bug -/

theorem bigCache_keys : bigCache.map Prod.fst = List.range 50000 := by
  have hcomp : (Prod.fst ∘ fun i : Nat => (i, "u")) = id := rfl
  rw [bigCache, List.map_map, hcomp, List.map_id]

theorem not_mem_bigCache_keys : (60000 : Nat) ∉ bigCache.map Prod.fst := by
  rw [bigCache_keys, List.mem_range]
  omega

theorem bigCache_length : bigCache.length = 50000 := by
  simp [bigCache]

theorem bigCache_ne_nil : bigCache ≠ [] := by
  intro h
  have := bigCache_length
  rw [h] at this
  simp at this

attribute [irreducible] bigCache

/-- Symbolic form of the eviction path of `fetchStep`: a successful fetch
into a cache already holding 50,000 entries (with the fetched id absent)
inserts the new entry, deletes the dict's first — i.e. oldest — entry, and
raises. -/
theorem fetchStep_evicts (st : AvatarState) (curTime : Int) (uid : Nat)
    (face : String)
    (hface : pyEndsWith face "noface.gif" = false)
    (hmem : uid ∉ st.cache.map Prod.fst)
    (hlen : st.cache.length = 50000) :
    fetchStep st curTime uid (.response 200 (some face)) =
      ⟨.raise,
       { st with cache := st.cache.tail ++ [(uid, face ++ "@48w_48h")],
                 lastFetchTime := curTime }, true⟩ := by
  have hnil : st.cache ≠ [] := by
    intro h
    rw [h] at hlen
    simp at hlen
  have hins : insertCache st.cache uid (face ++ "@48w_48h") =
      st.cache ++ [(uid, face ++ "@48w_48h")] :=
    insertCache_of_absent _ _ _ hmem
  have hlen2 : (st.cache ++ [(uid, face ++ "@48w_48h")]).length = 50001 := by
    simp [hlen]
  have htail : (st.cache ++ [(uid, face ++ "@48w_48h")]).tail =
      st.cache.tail ++ [(uid, face ++ "@48w_48h")] :=
    tail_append_of_ne_nil _ _ hnil
  simp only [fetchStep, hface, Bool.false_eq_true, if_false, hins, hlen2,
    htail]
  norm_num

/-- Symbolic form of the path of `get_avatar_url` that reaches the fetch:
cache miss, throttle interval elapsed, no failure recorded. -/
theorem getAvatarUrl_reaches_fetch (st : AvatarState) (curTime : Int)
    (uid : Nat) (fetch : FetchResult)
    (hmiss : lookupCache st.cache uid = none)
    (hslow : ¬ curTime - st.lastFetchTime < 200)
    (hfail : st.lastFailedTime = none) :
    getAvatarUrl st curTime uid fetch = fetchStep st curTime uid fetch := by
  simp [getAvatarUrl, hmiss, hslow, hfail]

/-- Evaluation of the run that triggers eviction: the cache is at the
50,000-entry bound, user id 60000 misses, the fetch succeeds with face
"f".  The code inserts `(60000, "f@48w_48h")` (reaching 50,001 entries),
the eviction loop deletes the dict's first key — the oldest entry,
`(0, "u")` — and then the dict iterator raises `RuntimeError`, which
escapes `get_avatar_url`. -/
theorem evictionRun_eq :
    getAvatarUrl ⟨bigCache, 0, none, []⟩ 1000 60000
        (.response 200 (some "f")) =
      ⟨.raise, ⟨bigCache.tail ++ [(60000, "f@48w_48h")], 1000, none, []⟩,
       true⟩ := by
  have hmiss : lookupCache bigCache 60000 = none :=
    (lookupCache_eq_none_iff _ _).mpr not_mem_bigCache_keys
  have hslow : ¬ (1000 : Int) - (0 : Int) < 200 := by norm_num
  have hface : pyEndsWith "f" "noface.gif" = false := by decide
  have h1 := getAvatarUrl_reaches_fetch ⟨bigCache, 0, none, []⟩ 1000 60000
    (.response 200 (some "f")) hmiss hslow rfl
  have h2 := fetchStep_evicts ⟨bigCache, 0, none, []⟩ 1000 60000 "f" hface
    not_mem_bigCache_keys bigCache_length
  rw [h1, h2]
  rfl

/-- C5 (code bug): when an insertion pushes the avatar cache over the
50,000-entry bound, the eviction loop
`for _, key in zip(range(100), _avatar_url_cache): del _avatar_url_cache[key]`
deletes one entry and then raises
`RuntimeError: dictionary changed size during iteration`; it never removes
the batch of 100 the code (and claim) intend, and the call does not
complete normally.  At the failing input the call raises and the cache is
left at 50,000 entries — 100 entries were not removed. -/
theorem eviction_removes_one_and_raises :
    (getAvatarUrl ⟨bigCache, 0, none, []⟩ 1000 60000
        (.response 200 (some "f"))).res = .raise ∧
    (getAvatarUrl ⟨bigCache, 0, none, []⟩ 1000 60000
        (.response 200 (some "f"))).st.cache.length = 50000 := by
  rw [evictionRun_eq]
  refine ⟨rfl, ?_⟩
  rw [List.length_append, List.length_tail, bigCache_length]
  rfl

/-- C10 (code bug): at the eviction-triggering input the just-inserted
user id does remain cached (only the oldest entry, the dict's first key,
is deleted — never the new one), but `get_avatar_url` raises
`RuntimeError` instead of returning the freshly fetched URL, and only one
entry is evicted rather than the 100 oldest. -/
theorem eviction_keeps_new_entry :
    (getAvatarUrl ⟨bigCache, 0, none, []⟩ 1000 60000
        (.response 200 (some "f"))).st.cache =
      bigCache.tail ++ [(60000, "f@48w_48h")] ∧
    lookupCache (getAvatarUrl ⟨bigCache, 0, none, []⟩ 1000 60000
        (.response 200 (some "f"))).st.cache 60000 = some "f@48w_48h" ∧
    (getAvatarUrl ⟨bigCache, 0, none, []⟩ 1000 60000
        (.response 200 (some "f"))).res = .raise := by
  rw [evictionRun_eq]
  refine ⟨rfl, ?_, rfl⟩
  have htailmem : (60000 : Nat) ∉ bigCache.tail.map Prod.fst := by
    intro hm
    rcases List.mem_map.mp hm with ⟨p, hp, hfst⟩
    have hmem2 : p.fst ∈ bigCache.map Prod.fst :=
      List.mem_map_of_mem Prod.fst (List.mem_of_mem_tail hp)
    rw [hfst] at hmem2
    exact not_mem_bigCache_keys hmem2
  rw [lookupCache_append_of_absent _ _ _ htailmem]
  rfl

end ChatPy
